import Mathlib

/-!
Shallow embedding of the Fuel-CreditScore Telegram bot
(`src/backend/src/server.js`, primary revision, lines 1-590).

The program keeps one record per (chat, user) pair holding a numeric credit
score, mutated when group members reply to each other with specific stickers
or react with specific emoji.  The embedding below translates the data model
(the mongoose `userSchema`), the static `STICKER_CREDITS` rule table, the
helper functions `getScoreEmoji` / `getFunComment`, and the event handlers
for stickers, reactions, `/score` and `/leaderboard` into pure Lean
functions over an explicit store.  Mongo collections are modelled as a list
of records; `findOne` is a first-match scan, `save` replaces the matching
record (or appends a fresh one), `countDocuments` with a `$gt` filter is a
filtered length, and `find().sort({creditScore:-1}).limit(10)` is a
descending insertion sort followed by `take 10`.
-/

namespace FuelCreditScore

/-- A Telegram user object as the handlers consume it (`msg.from` /
`msg.reply_to_message.from`): the numeric `id` already stringified, the
`first_name`, `username` and `is_bot` fields.  The JS field `from` is a Lean
keyword, so events below call this field `sender`. -/
structure UserRef where
  id : String
  first_name : String
  username : String
  is_bot : Bool
deriving Repr, DecidableEq

/-- One document of the chat collection (`userSchema`, server.js lines
77-83): `telegramId`, `chatId`, `username`, `creditScore` (default 0).  The
`createdAt` timestamp is informational only and omitted. -/
structure ScoreRecord where
  telegramId : String
  chatId : String
  username : String
  creditScore : Int
deriving Repr, DecidableEq

/-- A chat collection: the documents in insertion order. -/
abbrev Store := List ScoreRecord

/-- Whether a document matches the compound key used by every
`findOne({telegramId, chatId})` call in the handlers. -/
def keyMatches (telegramId chatId : String) (r : ScoreRecord) : Bool :=
  r.telegramId == telegramId && r.chatId == chatId

/-- `ChatUsers.findOne({telegramId, chatId})`: first matching document. -/
def findOne (store : Store) (telegramId chatId : String) : Option ScoreRecord :=
  store.find? (keyMatches telegramId chatId)

/-- `user.save()`: persist a (possibly new) document.  If a document with
the same (telegramId, chatId) key exists it is overwritten in place,
otherwise the document is appended. -/
def saveRecord (store : Store) (rec : ScoreRecord) : Store :=
  if store.any (keyMatches rec.telegramId rec.chatId) then
    store.map (fun r => if keyMatches rec.telegramId rec.chatId r then rec else r)
  else
    store ++ [rec]

/-- `ChatUsers.countDocuments({chatId, creditScore: {$gt: score}})`
(server.js lines 462-465). -/
def countGreater (store : Store) (chatId : String) (score : Int) : Nat :=
  (store.filter (fun r => r.chatId == chatId && score < r.creditScore)).length

/-- The static `STICKER_CREDITS` table (server.js lines 94-103): sticker
file-id aliases mapped to the signed credit delta they carry. -/
def STICKER_CREDITS : List (String × Int) :=
  [ ("CAACAgQAAxkBAAMJaC70UAGyYccTdJN7kWwcqpgD7ScAAnYZAAKd5PFQFEAlUp3q1aM2BA", 20),
    ("CAACAgQAAxkBAAMYaC71bUrHYlMTtCvKe7AJUTvccqsAAmwYAALVfPFQvaBMA18SdHI2BA", -20),
    ("CAACAgQAAyEFAASNsb1cAAEB1DxoR1ywgXya5nIdzlKZWFIuWMkFbgACdhkAAp3k8VAUQCVSnerVozYE", 20),
    ("CAACAgQAAyEFAASNsb1cAAEB065oR0CEpiUng5nVfWQnyAb6230kngACbBgAAtV88VC9oEwDXxJ0cjYE", -20),
    ("CAACAgQAAx0Cfqd5yAACmadoZlIcP3qkSXPuqLgRPgnOPmS8KQACdhkAAp3k8VAUQCVSnerVozYE", 20),
    ("CAACAgQAAxkBAAPSaGZViuWooIVcSeWRsZT5MirCHOwAAmwYAALVfPFQvaBMA18SdHI2BA", -20),
    ("CAACAgQAAx0Cfqd5yAACnVBog4HxT6GUSIpDDHvx0ate89LoZQACdhkAAp3k8VAUQCVSnerVozYE", 20),
    ("CAACAgQAAxkBAAPkaIaD-2u-9SBu4q2HhwjGVjuuc58AAmwYAALVfPFQvaBMA18SdHI2BA", -20) ]

/-- `STICKER_CREDITS[stickerId]`: the delta for a sticker id, if any. -/
def stickerDelta (stickerId : String) : Option Int :=
  STICKER_CREDITS.lookup stickerId

/-- `getScoreEmoji` (server.js lines 357-363). -/
def getScoreEmoji (score : Int) : String :=
  if score > 100 then "🏅"
  else if score > 50 then "🥇"
  else if score > 0 then "🎯"
  else if score < -50 then "⚠️"
  else "😅"

/-- `getFunComment` (server.js lines 366-384): fixed superlatives for
positions 1-3, otherwise a comment chosen by score bands.  Note the fourth
band tests `score > -50`, not `score < -50`. -/
def getFunComment (score : Int) (position : Nat) : String :=
  if position == 1 then "The most trusted citizen in the group!"
  else if position == 2 then "Almost worthy of the highest privileges!"
  else if position == 3 then "Still considered a model citizen!"
  else if score > 100 then "Your loyalty to the group is unquestionable!"
  else if score > 50 then "Your social standing is quite respectable!"
  else if score > 0 then "Your behavior is... acceptable."
  else if score > -50 then "Your social credit needs improvement..."
  else "Your behavior is being closely monitored!"

/-- The user-facing strings sent by the handlers (server.js lines 403, 422,
430, 482, 564, 313, 271). -/
def noTargetMessage : String :=
  "❌ Please reply to someone\x27s message with the sticker to change their score!"

/-- Denial message for a self-vote. -/
def selfVoteMessage : String := "❌ You can\x27t change your own score!"

/-- Denial message for a bot target. -/
def botTargetMessage : String := "❌ Bots can\x27t receive credit scores!"

/-- Generic apology sent by the sticker handler's catch block. -/
def stickerApology : String :=
  "🚫 Sorry, there was an error processing your sticker. Please try again later."

/-- Generic apology sent by the reaction handler's catch block. -/
def reactionApology : String :=
  "🚫 Sorry, there was an error processing your reaction. Please try again later."

/-- Reply of `/score` when the caller has no record. -/
def notRegisteredMessage : String :=
  "❌ You haven\x27t registered yet. Use /start to register!"

/-- Reply of `/leaderboard` when the chat has no records. -/
def noScoresMessage : String :=
  "📊 No credit scores recorded yet in this group."

/-- What a handler invocation leaves behind: the resulting store and the
texts passed to `bot.sendMessage`, in order. -/
structure Outcome where
  store : Store
  messages : List String
deriving Repr, DecidableEq

/-- `msg.reply_to_message.from.first_name.split('|')[0].trim() ||
msg.reply_to_message.from.username` (server.js line 409); JS `||` falls
through on the empty string. -/
def displayName (u : UserRef) : String :=
  let fn := ((u.first_name.splitOn "|").headD "").trim
  if fn = "" then u.username else fn

/-- A sticker message as the sticker handler consumes it: the chat id,
the sticker file id, the sending user, and the author of the replied-to
message when the sticker message is a reply. -/
structure StickerMsg where
  chatId : String
  stickerId : String
  sender : UserRef
  reply_to_message : Option UserRef
deriving Repr, DecidableEq

/-- The update step of the sticker handler (server.js lines 439-466):
fetch-or-create the target's record, add the delta, save, then recompute
the 1-based position as `countDocuments({creditScore: {$gt: new}}) + 1`. -/
structure UpdateResult where
  store : Store
  oldScore : Int
  newScore : Int
  rank : Nat
deriving Repr, DecidableEq

/-- `applySignal`: the ledger-update block of the sticker handler
(server.js lines 439-466), translated verbatim: `findOne`, lazily create at
`creditScore: 0`, `user.creditScore += delta`, `save`, recompute position. -/
def applySignal (store : Store) (chatId targetUserId targetUsername : String)
    (delta : Int) : UpdateResult :=
  let user :=
    match findOne store targetUserId chatId with
    | some u => u
    | none => ⟨targetUserId, chatId, targetUsername, 0⟩
  let oldScore := user.creditScore
  let updated := { user with creditScore := oldScore + delta }
  let store2 := saveRecord store updated
  let position := countGreater store2 chatId updated.creditScore + 1
  ⟨store2, oldScore, updated.creditScore, position⟩

/-- The confirmation text of the sticker handler (server.js line 477). -/
def stickerConfirm (emoji username : String) (oldScore newScore : Int)
    (comment : String) : String :=
  emoji ++ " " ++ username ++ "\x27s credit score changed from " ++
    toString oldScore ++ " to " ++ toString newScore ++ "\n" ++ comment

/-- The sticker handler (server.js lines 387-484).  Order of checks as in
the source: unknown sticker → silent return; not a reply → warning; sender
id `777000` → silent return; self-vote → warning; bot target → warning;
otherwise apply the delta and send the confirmation. -/
def stickerHandler (store : Store) (msg : StickerMsg) : Outcome :=
  match stickerDelta msg.stickerId with
  | none => ⟨store, []⟩
  | some delta =>
    match msg.reply_to_message with
    | none => ⟨store, [noTargetMessage]⟩
    | some target =>
      let targetUserId := target.id
      let targetUsername := displayName target
      let senderId := msg.sender.id
      if senderId == "777000" then ⟨store, []⟩
      else if senderId == targetUserId then ⟨store, [selfVoteMessage]⟩
      else if target.is_bot then ⟨store, [botTargetMessage]⟩
      else
        let res := applySignal store msg.chatId targetUserId targetUsername delta
        let comment := getFunComment res.newScore res.rank
        let emoji := getScoreEmoji res.newScore
        ⟨res.store, [stickerConfirm emoji targetUsername res.oldScore res.newScore comment]⟩

/-- A JavaScript runtime error, as thrown inside a handler's try block. -/
inductive JsError where
  | referenceError (name : String)
deriving Repr, DecidableEq

/-- A reaction event as the reaction handler consumes it: the chat id, the
reacting user, and the emoji of `msg.reaction[0]`. -/
structure ReactionMsg where
  chatId : String
  sender : UserRef
  emoji : String
deriving Repr, DecidableEq

/-- The try block of the reaction handler (server.js lines 487-561).
`lastMessageAuthor` stands for the author of the message the handler
re-fetches as "the last message in the chat" (lines 490-492).  Checks in
source order: no message found → silent return; reactor id `777000` →
silent return; self-vote → warning; bot author → warning.  The next
statement, `await User.findOne(...)` (line 532), reads the identifier
`User`, which is never declared anywhere in this revision (only
`getChatCollection` exists, lines 89-91), so evaluating it throws a
`ReferenceError` before the emoji is ever inspected. -/
def reactionHandlerTry (store : Store) (msg : ReactionMsg)
    (lastMessageAuthor : Option UserRef) : Except JsError Outcome :=
  match lastMessageAuthor with
  | none => Except.ok ⟨store, []⟩
  | some author =>
    let messageAuthorId := author.id
    let reactorId := msg.sender.id
    if reactorId == "777000" then Except.ok ⟨store, []⟩
    else if reactorId == messageAuthorId then Except.ok ⟨store, [selfVoteMessage]⟩
    else if author.is_bot then Except.ok ⟨store, [botTargetMessage]⟩
    else Except.error (JsError.referenceError "User")

/-- The reaction handler with its catch block (server.js lines 562-565):
any error thrown in the try block is converted into the generic apology
reply, and the store round-trip never happened. -/
def reactionHandler (store : Store) (msg : ReactionMsg)
    (lastMessageAuthor : Option UserRef) : Outcome :=
  match reactionHandlerTry store msg lastMessageAuthor with
  | Except.ok o => o
  | Except.error _ => ⟨store, [reactionApology]⟩

/-- The spec's denial reasons (§4.2, §7). -/
inductive Reason where
  | NoTarget
  | SenderExcluded
  | SelfVote
  | BotTarget
deriving Repr, DecidableEq

/-- The eligibility chain of the sticker handler, extracted from server.js
lines 400-433 in source order: missing reply target, excluded sender
(`777000`), self-vote, bot target. -/
def checkEligibility (msg : StickerMsg) : Option Reason :=
  match msg.reply_to_message with
  | none => some Reason.NoTarget
  | some target =>
    if msg.sender.id == "777000" then some Reason.SenderExcluded
    else if msg.sender.id == target.id then some Reason.SelfVote
    else if target.is_bot then some Reason.BotTarget
    else none

/-- The messages the sticker handler actually sends on each denial
(server.js lines 403, 414, 422, 430): the `777000` denial is silent. -/
def denialMessages : Reason → List String
  | Reason.NoTarget => [noTargetMessage]
  | Reason.SenderExcluded => []
  | Reason.SelfVote => [selfVoteMessage]
  | Reason.BotTarget => [botTargetMessage]

/-- Spec predicate 1 (§4.2): the sticker message has a reply target. -/
def hasTargetP (msg : StickerMsg) : Bool :=
  msg.reply_to_message.isSome

/-- Spec predicate 2 (§4.2): the sender is not an excluded account. -/
def senderAllowedP (msg : StickerMsg) : Bool :=
  !(msg.sender.id == "777000")

/-- Spec predicate 3 (§4.2): the sender does not target themselves
(vacuously true when there is no target). -/
def notSelfP (msg : StickerMsg) : Bool :=
  match msg.reply_to_message with
  | some target => !(msg.sender.id == target.id)
  | none => true

/-- Spec predicate 4 (§4.2): the target is not a bot (vacuously true when
there is no target). -/
def targetNotBotP (msg : StickerMsg) : Bool :=
  match msg.reply_to_message with
  | some target => !target.is_bot
  | none => true

/-- The spec's ordered predicate chain (§4.2), as an explicit list. -/
def guardChain (msg : StickerMsg) : List (Bool × Reason) :=
  [ (hasTargetP msg, Reason.NoTarget),
    (senderAllowedP msg, Reason.SenderExcluded),
    (notSelfP msg, Reason.SelfVote),
    (targetNotBotP msg, Reason.BotTarget) ]

/-- Modelled from the spec (§4.2): the denial reason is that of the first
failing predicate in the ordered chain. -/
def firstFailing (msg : StickerMsg) : Option Reason :=
  ((guardChain msg).find? (fun p => !p.1)).map Prod.snd

/-- The `/score` command handler (server.js lines 290-328): look the caller
up; report the score, or the not-registered message when absent.  No write
to the store occurs on either path. -/
def scoreCommand (store : Store) (chatId userId : String) : Outcome :=
  match findOne store userId chatId with
  | none => ⟨store, [notRegisteredMessage]⟩
  | some user =>
    ⟨store, [getScoreEmoji user.creditScore ++ " Your current credit score is: " ++
      toString user.creditScore ++ " points"]⟩

/-- The medal column of a leaderboard row (server.js line 278):
`index === 0 ? "🥇" : index === 1 ? "🥈" : index === 2 ? "🥉" :
`${index + 1}.``. -/
def medalFor (index : Nat) : String :=
  if index == 0 then "🥇"
  else if index == 1 then "🥈"
  else if index == 2 then "🥉"
  else toString (index + 1) ++ "."

/-- One leaderboard row (server.js line 279). -/
def leaderboardLine (index : Nat) (u : ScoreRecord) : String :=
  medalFor index ++ " " ++ u.username ++ ": " ++ toString u.creditScore ++ " points\n"

/-- The rendered leaderboard text (server.js lines 276-280). -/
def renderLeaderboard (users : List ScoreRecord) : String :=
  "🏆 *Fuel Credit Score Leaderboard* 🏆\n\n" ++
    String.join ((users.enum.map (fun p => leaderboardLine p.1 p.2)))

/-- Score order used by `sort({creditScore: -1})`: higher scores first. -/
def scoreDesc (a b : ScoreRecord) : Prop :=
  b.creditScore ≤ a.creditScore

instance : DecidableRel scoreDesc :=
  fun a b => inferInstanceAs (Decidable (b.creditScore ≤ a.creditScore))

instance : IsTotal ScoreRecord scoreDesc :=
  ⟨fun a b => le_total b.creditScore a.creditScore⟩

instance : IsTrans ScoreRecord scoreDesc :=
  ⟨fun _ _ _ h1 h2 => le_trans h2 h1⟩

/-- `ChatUsers.find({chatId}).sort({creditScore: -1}).limit(10)`
(server.js lines 266-268). -/
def topTen (store : Store) (chatId : String) : List ScoreRecord :=
  ((store.filter (fun r => r.chatId == chatId)).insertionSort scoreDesc).take 10

/-- The `/leaderboard` command handler (server.js lines 258-287): the
empty-chat message when the query returns nothing, otherwise the rendered
top-10 list.  No write to the store occurs on either path. -/
def leaderboardCommand (store : Store) (chatId : String) : Outcome :=
  let topUsers := topTen store chatId
  if topUsers.length == 0 then ⟨store, [noScoresMessage]⟩
  else ⟨store, [renderLeaderboard topUsers]⟩

/-- The read half of the sticker handler's score mutation (server.js lines
439-453): `findOne` the target's record and take its `creditScore`, or 0
when no record exists. -/
def rmwRead (store : Store) (telegramId chatId : String) : Int :=
  match findOne store telegramId chatId with
  | some u => u.creditScore
  | none => 0

/-- The write half of the sticker handler's score mutation (server.js lines
455-458): save the target's record with the given score, keeping the stored
username for an existing record and using `nameIfNew` for a fresh one.
Together with `rmwRead` this is a plain read-then-write: nothing links the
write to the read it was computed from. -/
def rmwWrite (store : Store) (telegramId chatId nameIfNew : String) (v : Int) : Store :=
  match findOne store telegramId chatId with
  | some u => saveRecord store { u with creditScore := v }
  | none => saveRecord store ⟨telegramId, chatId, nameIfNew, v⟩

/-! ## Store lemmas -/

lemma keyMatches_self (r : ScoreRecord) : keyMatches r.telegramId r.chatId r = true := by
  simp [keyMatches]

lemma findOne_key {store : Store} {t c : String} {u : ScoreRecord}
    (h : findOne store t c = some u) : u.telegramId = t ∧ u.chatId = c := by
  have h2 := List.find?_some h
  simpa [keyMatches] using h2

lemma find?_map_update (t c : String) (rec : ScoreRecord)
    (hrec : keyMatches t c rec = true) (l : List ScoreRecord)
    (hl : l.any (keyMatches t c) = true) :
    (l.map (fun r => if keyMatches t c r then rec else r)).find? (keyMatches t c) =
      some rec := by
  induction l with
  | nil => simp at hl
  | cons a l ih =>
    by_cases ha : keyMatches t c a = true
    · simp [List.find?, ha, hrec]
    · have ha' : keyMatches t c a = false := by simpa using ha
      have hl' : l.any (keyMatches t c) = true := by simpa [ha'] using hl
      simpa [List.find?, ha'] using ih hl'

lemma findOne_saveRecord (store : Store) (rec : ScoreRecord) :
    findOne (saveRecord store rec) rec.telegramId rec.chatId = some rec := by
  unfold findOne saveRecord
  by_cases h : store.any (keyMatches rec.telegramId rec.chatId) = true
  · simp only [h, if_true]
    exact find?_map_update _ _ rec (keyMatches_self rec) store h
  · have h' : store.any (keyMatches rec.telegramId rec.chatId) = false := by
      simpa using h
    simp only [h', Bool.false_eq_true, if_false, List.find?_append]
    have h0 : store.find? (keyMatches rec.telegramId rec.chatId) = none := by
      rw [List.find?_eq_none]
      intro x hx hpx
      exact h (List.any_eq_true.mpr ⟨x, hx, hpx⟩)
    simp [h0, List.find?, keyMatches_self rec]

lemma findOne_saveRecord_of_key (store : Store) (rec : ScoreRecord) (t c : String)
    (h1 : rec.telegramId = t) (h2 : rec.chatId = c) :
    findOne (saveRecord store rec) t c = some rec := by
  subst h1; subst h2; exact findOne_saveRecord store rec

lemma mem_saveRecord {store : Store} {rec r : ScoreRecord} (h : r ∈ saveRecord store rec) :
    r = rec ∨ (r ∈ store ∧ keyMatches rec.telegramId rec.chatId r = false) := by
  unfold saveRecord at h
  by_cases hc : store.any (keyMatches rec.telegramId rec.chatId) = true
  · simp only [hc, if_true, List.mem_map] at h
    obtain ⟨x, hx, hfx⟩ := h
    by_cases hkx : keyMatches rec.telegramId rec.chatId x = true
    · left
      rw [← hfx]
      simp [hkx]
    · right
      have hkx' : keyMatches rec.telegramId rec.chatId x = false := by simpa using hkx
      constructor
      · rw [← hfx]
        simpa [hkx'] using hx
      · rw [← hfx]
        simp [hkx']
  · have hc' : store.any (keyMatches rec.telegramId rec.chatId) = false := by simpa using hc
    simp only [hc', Bool.false_eq_true, if_false, List.mem_append, List.mem_singleton] at h
    rcases h with h | h
    · right
      refine ⟨h, ?_⟩
      by_contra hk
      have hk' : keyMatches rec.telegramId rec.chatId r = true := by
        cases hkv : keyMatches rec.telegramId rec.chatId r
        · exact absurd hkv hk
        · rfl
      exact absurd (List.any_eq_true.mpr ⟨r, h, hk'⟩) (by simp [hc'])
    · left; exact h

lemma mem_saveRecord_key {store : Store} {rec r : ScoreRecord}
    (hmem : r ∈ saveRecord store rec)
    (hkey : keyMatches rec.telegramId rec.chatId r = true) : r = rec := by
  rcases mem_saveRecord hmem with h | ⟨_, hf⟩
  · exact h
  · rw [hkey] at hf; cases hf

/-! ## Claim theorems -/

/-- C1: for an applicable sticker signal that passes every eligibility
check, the persisted score of the target (chatId, targetId) record is
exactly `S + D`, where `S` is the score of the existing record, or 0 when
no record existed (a fresh record is created at 0 and then adjusted, so
the persisted score is exactly `D`). -/
theorem sticker_apply_persists_sum (store : Store) (msg : StickerMsg)
    (target : UserRef) (delta : Int)
    (hd : stickerDelta msg.stickerId = some delta)
    (ht : msg.reply_to_message = some target)
    (hx : msg.sender.id ≠ "777000")
    (hs : msg.sender.id ≠ target.id)
    (hb : target.is_bot = false) :
    (findOne (stickerHandler store msg).store target.id msg.chatId).map
        ScoreRecord.creditScore =
      some ((match findOne store target.id msg.chatId with
             | some u => u.creditScore
             | none => 0) + delta) := by
  have hx' : (msg.sender.id == "777000") = false := by simp [hx]
  have hs' : (msg.sender.id == target.id) = false := by simp [hs]
  simp only [stickerHandler, hd, ht, hx', hs', hb, Bool.false_eq_true, if_false]
  unfold applySignal
  cases hf : findOne store target.id msg.chatId with
  | none =>
    simp only [hf]
    rw [findOne_saveRecord_of_key store
      ⟨target.id, msg.chatId, displayName target, 0 + delta⟩ target.id msg.chatId rfl rfl]
    rfl
  | some u =>
    simp only [hf]
    rw [findOne_saveRecord_of_key store { u with creditScore := u.creditScore + delta }
      target.id msg.chatId (findOne_key hf).1 (findOne_key hf).2]
    rfl

/-- Concrete run of `sticker_apply_persists_sum`: user B at score 50 in
chat C receives a +20 sticker from A. -/
def c1Store : Store := [⟨"B", "C", "b", 50⟩]

/-- The C1 witness event: A replies to B with the first +20 sticker. -/
def c1Msg : StickerMsg :=
  ⟨"C", "CAACAgQAAxkBAAMJaC70UAGyYccTdJN7kWwcqpgD7ScAAnYZAAKd5PFQFEAlUp3q1aM2BA",
   ⟨"A", "a", "a", false⟩, some ⟨"B", "b", "b", false⟩⟩

/-- Witness for C1 at the concrete input above. -/
theorem sticker_apply_persists_sum_witness :
    (findOne (stickerHandler c1Store c1Msg).store "B" "C").map
        ScoreRecord.creditScore =
      some ((match findOne c1Store "B" "C" with
             | some u => u.creditScore
             | none => 0) + 20) :=
  sticker_apply_persists_sum c1Store c1Msg ⟨"B", "b", "b", false⟩ 20 (by decide) rfl
    (by decide) (by decide) rfl

/-- C2 counterexample: a credit sticker sent as a reply by the excluded
sender `777000` (target distinct, not a bot) is a `SenderExcluded` denial,
yet the handler sends no message at all (server.js lines 413-416 return
silently), contradicting the claim that every denial reason has a fixed
user-facing message. The store is still left unchanged. -/
theorem sticker_excluded_sender_is_silent :
    checkEligibility
        ⟨"C", "CAACAgQAAxkBAAMJaC70UAGyYccTdJN7kWwcqpgD7ScAAnYZAAKd5PFQFEAlUp3q1aM2BA",
         ⟨"777000", "tg", "tg", false⟩, some ⟨"B", "b", "b", false⟩⟩ =
      some Reason.SenderExcluded ∧
    stickerHandler [⟨"B", "C", "b", 50⟩]
        ⟨"C", "CAACAgQAAxkBAAMJaC70UAGyYccTdJN7kWwcqpgD7ScAAnYZAAKd5PFQFEAlUp3q1aM2BA",
         ⟨"777000", "tg", "tg", false⟩, some ⟨"B", "b", "b", false⟩⟩ =
      ⟨[⟨"B", "C", "b", 50⟩], []⟩ := by
  constructor <;> rfl

/-- C2 (amended): an eligibility denial of a classified sticker signal
never mutates the store; `NoTarget`, `SelfVote` and `BotTarget` each send
their fixed denial message, while the `SenderExcluded` denial is silent
(no message is sent). -/
theorem sticker_denial_no_mutation (store : Store) (msg : StickerMsg)
    (delta : Int) (r : Reason)
    (hd : stickerDelta msg.stickerId = some delta)
    (hr : checkEligibility msg = some r) :
    stickerHandler store msg = ⟨store, denialMessages r⟩ := by
  cases htgt : msg.reply_to_message with
  | none =>
    simp only [checkEligibility, htgt, Option.some.injEq] at hr
    simp [stickerHandler, hd, htgt, ← hr, denialMessages]
  | some target =>
    simp only [checkEligibility, htgt] at hr
    by_cases h1 : (msg.sender.id == "777000") = true
    · simp only [h1, if_true, Option.some.injEq] at hr
      simp [stickerHandler, hd, htgt, h1, ← hr, denialMessages]
    · have h1' : (msg.sender.id == "777000") = false := by simpa using h1
      simp only [h1', Bool.false_eq_true, if_false] at hr
      by_cases h2 : (msg.sender.id == target.id) = true
      · simp only [h2, if_true, Option.some.injEq] at hr
        simp [stickerHandler, hd, htgt, h1', h2, ← hr, denialMessages]
      · have h2' : (msg.sender.id == target.id) = false := by simpa using h2
        simp only [h2', Bool.false_eq_true, if_false] at hr
        by_cases h3 : target.is_bot = true
        · simp only [h3, if_true, Option.some.injEq] at hr
          simp [stickerHandler, hd, htgt, h1', h2', h3, ← hr, denialMessages]
        · have h3' : target.is_bot = false := by simpa using h3
          simp [h3'] at hr

/-- Witness for the amended C2: a self-vote with a credit sticker leaves
the store unchanged and sends exactly the self-vote warning. -/
theorem sticker_denial_no_mutation_witness :
    stickerHandler [⟨"B", "C", "b", 50⟩]
        ⟨"C", "CAACAgQAAxkBAAMYaC71bUrHYlMTtCvKe7AJUTvccqsAAmwYAALVfPFQvaBMA18SdHI2BA",
         ⟨"B", "b", "b", false⟩, some ⟨"B", "b", "b", false⟩⟩ =
      ⟨[⟨"B", "C", "b", 50⟩], denialMessages Reason.SelfVote⟩ :=
  sticker_denial_no_mutation [⟨"B", "C", "b", 50⟩]
    ⟨"C", "CAACAgQAAxkBAAMYaC71bUrHYlMTtCvKe7AJUTvccqsAAmwYAALVfPFQvaBMA18SdHI2BA",
     ⟨"B", "b", "b", false⟩, some ⟨"B", "b", "b", false⟩⟩ (-20) Reason.SelfVote
    (by decide) (by decide)

/-- C4: the eligibility chain of the sticker handler checks, in order,
has-target, sender-not-excluded, no-self-vote, target-not-a-bot, and the
denial reason it reports is that of the first failing predicate in the
spec's ordered chain. -/
theorem eligibility_reports_first_failing (msg : StickerMsg) :
    checkEligibility msg = firstFailing msg := by
  rcases msg with ⟨chatId, stickerId, sender, rt⟩
  cases rt with
  | none =>
    simp [checkEligibility, firstFailing, guardChain, hasTargetP, List.find?]
  | some target =>
    cases h1 : (sender.id == "777000") <;>
      cases h2 : (sender.id == target.id) <;>
        cases h3 : target.is_bot <;>
          simp [checkEligibility, firstFailing, guardChain, hasTargetP, senderAllowedP,
            notSelfP, targetNotBotP, h1, h2, h3, List.find?]

/-- C3 counterexample: a reaction whose emoji `🔥` is not in the rule
table, sent by an eligible reactor, does NOT pass silently: the handler
crashes at the `User` lookup before the emoji is ever compared, and its
catch block sends the generic apology.  The claim that such a signal sends
no message is false for reactions. -/
theorem unknown_reaction_not_silent :
    (reactionHandler [] ⟨"C", ⟨"A", "a", "a", false⟩, "🔥"⟩
        (some ⟨"B", "b", "b", false⟩)).messages = [reactionApology] ∧
    (reactionHandler [] ⟨"C", ⟨"A", "a", "a", false⟩, "🔥"⟩
        (some ⟨"B", "b", "b", false⟩)).messages ≠ [] := by
  constructor
  · rfl
  · decide

/-- C3 (amended): a sticker signal whose sticker id is not in
`STICKER_CREDITS` produces nothing observable — no record is created, no
score changes, no message is sent; a reaction signal in this revision never
touches the store either (whatever its emoji), but an eligible reaction
does produce a message because the handler crashes before the emoji table
is consulted. -/
theorem unknown_sticker_silent (store rstore : Store) (msg : StickerMsg)
    (rmsg : ReactionMsg) (author : Option UserRef)
    (hmiss : stickerDelta msg.stickerId = none) :
    stickerHandler store msg = ⟨store, []⟩ ∧
    (reactionHandler rstore rmsg author).store = rstore := by
  constructor
  · simp [stickerHandler, hmiss]
  · cases author with
    | none => rfl
    | some a =>
      simp only [reactionHandler, reactionHandlerTry]
      split_ifs <;> rfl

/-- Witness for the amended C3 at a concrete unknown sticker id and a
concrete reaction. -/
theorem unknown_sticker_silent_witness :
    stickerHandler [⟨"B", "C", "b", 50⟩]
        ⟨"C", "not-a-credit-sticker", ⟨"A", "a", "a", false⟩,
         some ⟨"B", "b", "b", false⟩⟩ =
      ⟨[⟨"B", "C", "b", 50⟩], []⟩ ∧
    (reactionHandler [⟨"B", "C", "b", 50⟩] ⟨"C", ⟨"A", "a", "a", false⟩, "🔥"⟩
        (some ⟨"B", "b", "b", false⟩)).store = [⟨"B", "C", "b", 50⟩] :=
  unknown_sticker_silent [⟨"B", "C", "b", 50⟩] [⟨"B", "C", "b", 50⟩]
    ⟨"C", "not-a-credit-sticker", ⟨"A", "a", "a", false⟩, some ⟨"B", "b", "b", false⟩⟩
    ⟨"C", ⟨"A", "a", "a", false⟩, "🔥"⟩ (some ⟨"B", "b", "b", false⟩) (by decide)

/-- C6: in the primary revision the reaction handler's apply step reads the
undeclared identifier `User`, so every reaction event that passes all
eligibility checks raises a `ReferenceError`, control reaches the catch
branch which sends the generic apology, and the store is never touched by a
reaction. -/
theorem reaction_apply_step_raises (store : Store) (msg : ReactionMsg)
    (author : UserRef)
    (hx : msg.sender.id ≠ "777000")
    (hs : msg.sender.id ≠ author.id)
    (hb : author.is_bot = false) :
    reactionHandlerTry store msg (some author) =
      Except.error (JsError.referenceError "User") ∧
    reactionHandler store msg (some author) = ⟨store, [reactionApology]⟩ := by
  have hx' : (msg.sender.id == "777000") = false := by simp [hx]
  have hs' : (msg.sender.id == author.id) = false := by simp [hs]
  constructor
  · simp [reactionHandlerTry, hx', hs', hb]
  · simp [reactionHandler, reactionHandlerTry, hx', hs', hb]

/-- Witness for C6: an ordinary 👍 reaction by A on B's message. -/
theorem reaction_apply_step_raises_witness :
    reactionHandlerTry [⟨"B", "C", "b", 50⟩] ⟨"C", ⟨"A", "a", "a", false⟩, "👍"⟩
        (some ⟨"B", "b", "b", false⟩) =
      Except.error (JsError.referenceError "User") ∧
    reactionHandler [⟨"B", "C", "b", 50⟩] ⟨"C", ⟨"A", "a", "a", false⟩, "👍"⟩
        (some ⟨"B", "b", "b", false⟩) =
      ⟨[⟨"B", "C", "b", 50⟩], [reactionApology]⟩ :=
  reaction_apply_step_raises [⟨"B", "C", "b", 50⟩] ⟨"C", ⟨"A", "a", "a", false⟩, "👍"⟩
    ⟨"B", "b", "b", false⟩ (by decide) (by decide) rfl

lemma countGreater_saveRecord_excludes_target (store : Store) (updated : ScoreRecord) :
    countGreater (saveRecord store updated) updated.chatId updated.creditScore =
      ((saveRecord store updated).filter (fun r =>
        r.chatId == updated.chatId && !(r.telegramId == updated.telegramId) &&
          updated.creditScore < r.creditScore)).length := by
  unfold countGreater
  congr 1
  apply List.filter_congr
  intro r hr
  by_cases hk : keyMatches updated.telegramId updated.chatId r = true
  · have heq : r = updated := mem_saveRecord_key hr hk
    subst heq
    simp [lt_irrefl]
  · have hk' := hk
    simp only [keyMatches, Bool.and_eq_true, beq_iff_eq, not_and] at hk'
    cases hc : (r.chatId == updated.chatId) with
    | false => simp [hc]
    | true =>
      have hcc : r.chatId = updated.chatId := by simpa using hc
      have htid : ¬ r.telegramId = updated.telegramId := fun h => hk' h hcc
      have htid' : (r.telegramId == updated.telegramId) = false := by simpa using htid
      simp [hc, htid']

lemma countGreater_saveRecord_excludes (store : Store) (updated : ScoreRecord)
    (t c : String) (h1 : updated.telegramId = t) (h2 : updated.chatId = c) :
    countGreater (saveRecord store updated) c updated.creditScore =
      ((saveRecord store updated).filter (fun r =>
        r.chatId == c && !(r.telegramId == t) &&
          updated.creditScore < r.creditScore)).length := by
  subst h1; subst h2; exact countGreater_saveRecord_excludes_target store updated

/-- C5: after an applied score update the reported rank is 1 plus the
number of other records (different telegramId) in the same chat whose
score is strictly greater than the new score; and when every other record
of the chat scores strictly below the new score — in particular for the top
scorer of a chat with pairwise-distinct scores — the reported rank is 1. -/
theorem rank_counts_strictly_greater (store : Store)
    (chatId targetUserId targetUsername : String) (delta : Int) :
    (applySignal store chatId targetUserId targetUsername delta).rank =
      1 + ((applySignal store chatId targetUserId targetUsername delta).store.filter
        (fun r => r.chatId == chatId && !(r.telegramId == targetUserId) &&
          (applySignal store chatId targetUserId targetUsername delta).newScore <
            r.creditScore)).length ∧
    ((∀ r ∈ (applySignal store chatId targetUserId targetUsername delta).store,
        r.chatId = chatId → r.telegramId ≠ targetUserId →
        r.creditScore < (applySignal store chatId targetUserId targetUsername delta).newScore) →
      (applySignal store chatId targetUserId targetUsername delta).rank = 1) := by
  have main : ∀ upd : ScoreRecord, upd.telegramId = targetUserId →
      upd.chatId = chatId →
      (countGreater (saveRecord store upd) chatId upd.creditScore + 1 =
        1 + ((saveRecord store upd).filter
          (fun r => r.chatId == chatId && !(r.telegramId == targetUserId) &&
            upd.creditScore < r.creditScore)).length) ∧
      ((∀ r ∈ saveRecord store upd, r.chatId = chatId →
          r.telegramId ≠ targetUserId → r.creditScore < upd.creditScore) →
        countGreater (saveRecord store upd) chatId upd.creditScore + 1 = 1) := by
    intro upd h1 h2
    constructor
    · rw [countGreater_saveRecord_excludes store upd targetUserId chatId h1 h2]
      omega
    · intro htop
      have hz : countGreater (saveRecord store upd) chatId upd.creditScore = 0 := by
        unfold countGreater
        rw [List.length_eq_zero, List.filter_eq_nil_iff]
        intro r hr hcond
        simp only [Bool.and_eq_true, beq_iff_eq, decide_eq_true_eq] at hcond
        by_cases hk : keyMatches upd.telegramId upd.chatId r = true
        · have heq : r = upd := mem_saveRecord_key hr hk
          subst heq
          exact lt_irrefl _ hcond.2
        · have hk' := hk
          rw [h1, h2] at hk'
          simp only [keyMatches, Bool.and_eq_true, beq_iff_eq, not_and] at hk'
          have htid : r.telegramId ≠ targetUserId := fun h => hk' h hcond.1
          exact absurd hcond.2 (not_lt_of_gt (htop r hr hcond.1 htid))
      rw [hz]
  cases hf : findOne store targetUserId chatId with
  | none =>
    simp only [applySignal, hf]
    exact main ⟨targetUserId, chatId, targetUsername, 0 + delta⟩ rfl rfl
  | some u =>
    simp only [applySignal, hf]
    exact main { u with creditScore := u.creditScore + delta }
      (findOne_key hf).1 (findOne_key hf).2

/-- Witness for C5: B (score 80) in chat C receives +20 while A holds 50;
B tops the chat and the reported rank is 1. -/
theorem rank_counts_strictly_greater_witness :
    (applySignal [⟨"B", "C", "b", 80⟩, ⟨"A", "C", "a", 50⟩] "C" "B" "b" 20).rank = 1 :=
  (rank_counts_strictly_greater [⟨"B", "C", "b", 80⟩, ⟨"A", "C", "a", 50⟩]
    "C" "B" "b" 20).2 (by decide)

/-- C7: the sticker handler's score mutation is NOT an atomic
add-delta-and-return: its store effect factors as a plain `findOne` read
followed by an independent `save` write (`rmwRead`/`rmwWrite`), and
interleaving the reads and writes of two +20 signals on the same record
(read₁, read₂, write₁, write₂) loses an update — the final score is 20,
whereas the serial (and any atomic-add) execution yields 40.  This refutes
the claim for the code as written; the spec itself calls this pattern a
correctness bug, so the code, not the claim, is wrong. -/
theorem sticker_update_read_then_write :
    (∀ (store : Store) (chatId targetUserId targetUsername : String) (delta : Int),
      (applySignal store chatId targetUserId targetUsername delta).store =
        rmwWrite store targetUserId chatId targetUsername
          (rmwRead store targetUserId chatId + delta)) ∧
    rmwRead (rmwWrite (rmwWrite [] "B" "C" "b" (rmwRead [] "B" "C" + 20))
        "B" "C" "b" (rmwRead [] "B" "C" + 20)) "B" "C" = 20 ∧
    rmwRead (rmwWrite (rmwWrite [] "B" "C" "b" (rmwRead [] "B" "C" + 20))
        "B" "C" "b"
        (rmwRead (rmwWrite [] "B" "C" "b" (rmwRead [] "B" "C" + 20)) "B" "C" + 20))
      "B" "C" = 40 ∧
    (20 : Int) ≠ 40 := by
  refine ⟨?_, by decide, by decide, by decide⟩
  intro store chatId t n d
  cases hf : findOne store t chatId <;>
    simp [applySignal, rmwRead, rmwWrite, hf]

/-- C8: `/score` leaves the store entirely unchanged; an existing caller
gets their current score reported and an unregistered caller gets the
not-registered message, with no record created as a side effect. -/
theorem score_command_frame (store : Store) (chatId userId : String) :
    (scoreCommand store chatId userId).store = store ∧
    (scoreCommand store chatId userId).messages =
      (match findOne store userId chatId with
       | none => [notRegisteredMessage]
       | some user =>
         [getScoreEmoji user.creditScore ++ " Your current credit score is: " ++
           toString user.creditScore ++ " points"]) := by
  cases h : findOne store userId chatId <;> simp [scoreCommand, h]

/-- C9: `/leaderboard` on a chat with zero records sends the no-scores
message (never an empty rendering); otherwise it renders exactly the
non-empty top-10 list: at most 10 records, sorted by score descending,
each shown record scoring at least as much as every record beyond the
cut, with medal glyphs for positions 1-3 and ordinal numbering beyond.
The store is never modified. -/
theorem leaderboard_top_ten (store : Store) (chatId : String) :
    (leaderboardCommand store chatId).store = store ∧
    (store.filter (fun r => r.chatId == chatId) = [] →
      leaderboardCommand store chatId = ⟨store, [noScoresMessage]⟩) ∧
    (store.filter (fun r => r.chatId == chatId) ≠ [] →
      topTen store chatId ≠ [] ∧
      (leaderboardCommand store chatId).messages =
        [renderLeaderboard (topTen store chatId)]) ∧
    (topTen store chatId).length ≤ 10 ∧
    List.Sorted scoreDesc (topTen store chatId) ∧
    (∀ y ∈ topTen store chatId,
      ∀ x ∈ ((store.filter (fun r => r.chatId == chatId)).insertionSort scoreDesc).drop 10,
        x.creditScore ≤ y.creditScore) ∧
    medalFor 0 = "🥇" ∧ medalFor 1 = "🥈" ∧ medalFor 2 = "🥉" ∧
    (∀ i, 3 ≤ i → medalFor i = toString (i + 1) ++ ".") := by
  refine ⟨?_, ?_, ?_, ?_, ?_, ?_, rfl, rfl, rfl, ?_⟩
  · cases h : ((topTen store chatId).length == 0) <;>
      simp [leaderboardCommand, h]
  · intro hfe
    have ht : topTen store chatId = [] := by
      rw [topTen, hfe]
      rfl
    simp [leaderboardCommand, ht]
  · intro hne
    have ht : topTen store chatId ≠ [] := by
      rw [topTen, Ne, List.take_eq_nil_iff]
      rintro (h | h)
      · exact absurd h (by omega)
      · rw [← List.length_eq_zero, List.length_insertionSort,
          List.length_eq_zero] at h
        exact hne h
    have hlen : ((topTen store chatId).length == 0) = false := by
      rw [beq_eq_false_iff_ne, Ne, List.length_eq_zero]
      exact ht
    exact ⟨ht, by simp [leaderboardCommand, hlen]⟩
  · exact List.length_take_le 10 _
  · exact List.Pairwise.sublist (List.take_sublist 10 _)
      (List.sorted_insertionSort scoreDesc _)
  · have hs := List.sorted_insertionSort scoreDesc
      (store.filter (fun r => r.chatId == chatId))
    rw [← List.take_append_drop 10
      ((store.filter (fun r => r.chatId == chatId)).insertionSort scoreDesc)] at hs
    exact fun y hy x hx => (List.pairwise_append.mp hs).2.2 y hy x hx
  · intro i hi
    obtain ⟨n, rfl⟩ : ∃ n, i = n + 3 := ⟨i - 3, by omega⟩
    rfl

/-- Witness for C9: the empty chat produces the no-scores message; a chat
with two records renders them. -/
theorem leaderboard_top_ten_witness :
    leaderboardCommand [] "C" = ⟨[], [noScoresMessage]⟩ ∧
    (topTen [⟨"A", "C", "a", 5⟩, ⟨"B", "C", "b", 9⟩] "C" ≠ [] ∧
      (leaderboardCommand [⟨"A", "C", "a", 5⟩, ⟨"B", "C", "b", 9⟩] "C").messages =
        [renderLeaderboard (topTen [⟨"A", "C", "a", 5⟩, ⟨"B", "C", "b", 9⟩] "C")]) :=
  ⟨(leaderboard_top_ten [] "C").2.1 rfl,
   (leaderboard_top_ten [⟨"A", "C", "a", 5⟩, ⟨"B", "C", "b", 9⟩] "C").2.2.1
     (by decide)⟩

/-- The score-to-emoji banding of `getScoreEmoji`, as a band index:
0 = champion (> 100), 1 = gold (> 50), 2 = target (> 0),
3 = warning (< -50), 4 = struggling (else). -/
def emojiBandIdx (score : Int) : Nat :=
  if score > 100 then 0
  else if score > 50 then 1
  else if score > 0 then 2
  else if score < -50 then 3
  else 4

/-- The banding actually used by `getFunComment` for positions beyond 3,
with the same numbering (3 = the closely-monitored comment paired with the
warning emoji, 4 = the needs-improvement comment paired with the
struggling emoji).  Its fourth test is `score > -50`, not `score < -50`. -/
def commentBandIdx (score : Int) : Nat :=
  if score > 100 then 0
  else if score > 50 then 1
  else if score > 0 then 2
  else if score > -50 then 4
  else 3

/-- C10 counterexample: -50 and -30 sit in the same emoji band (both get
the struggling 😅), yet at rank 4 they receive different flavor comments —
so the comment is NOT selected by the same score bands as the emoji, and a
score of exactly -50 gets the closely-monitored comment, not the
struggling-band one. -/
theorem comment_band_not_emoji_band :
    getScoreEmoji (-50) = getScoreEmoji (-30) ∧
    getFunComment (-50) 4 ≠ getFunComment (-30) 4 ∧
    getFunComment (-50) 4 = "Your behavior is being closely monitored!" := by
  refine ⟨rfl, ?_, rfl⟩
  decide

/-- C10 (amended): ranks 1-3 get their fixed superlative comments
regardless of score; for every rank beyond 3 the comment is selected by
the bands score > 100, > 50, > 0, > -50, else.  This banding agrees with
the emoji banding at every score except exactly -50, where the emoji falls
in the struggling band but the comment falls in the
warning/closely-monitored band. -/
theorem flavor_text_bands (score s2 : Int) (rank : Nat)
    (hr : 3 < rank) (hs : s2 ≠ -50) :
    getFunComment score 1 = "The most trusted citizen in the group!" ∧
    getFunComment score 2 = "Almost worthy of the highest privileges!" ∧
    getFunComment score 3 = "Still considered a model citizen!" ∧
    getScoreEmoji score =
      ["🏅", "🥇", "🎯", "⚠️", "😅"].getD (emojiBandIdx score) "" ∧
    getFunComment score rank =
      ["Your loyalty to the group is unquestionable!",
       "Your social standing is quite respectable!",
       "Your behavior is... acceptable.",
       "Your behavior is being closely monitored!",
       "Your social credit needs improvement..."].getD (commentBandIdx score) "" ∧
    emojiBandIdx s2 = commentBandIdx s2 ∧
    emojiBandIdx (-50) ≠ commentBandIdx (-50) := by
  have h1 : (rank == 1) = false := by rw [beq_eq_false_iff_ne]; omega
  have h2 : (rank == 2) = false := by rw [beq_eq_false_iff_ne]; omega
  have h3 : (rank == 3) = false := by rw [beq_eq_false_iff_ne]; omega
  refine ⟨rfl, rfl, rfl, ?_, ?_, ?_, by decide⟩
  · unfold getScoreEmoji emojiBandIdx
    split_ifs <;> rfl
  · simp only [getFunComment, h1, h2, h3, Bool.false_eq_true, if_false]
    unfold commentBandIdx
    split_ifs <;> rfl
  · unfold emojiBandIdx commentBandIdx
    split_ifs <;> omega

/-- Witness for the amended C10 at score 60, comparison score -30, rank 5. -/
theorem flavor_text_bands_witness :
    getFunComment 60 1 = "The most trusted citizen in the group!" ∧
    getFunComment 60 2 = "Almost worthy of the highest privileges!" ∧
    getFunComment 60 3 = "Still considered a model citizen!" ∧
    getScoreEmoji 60 = ["🏅", "🥇", "🎯", "⚠️", "😅"].getD (emojiBandIdx 60) "" ∧
    getFunComment 60 5 =
      ["Your loyalty to the group is unquestionable!",
       "Your social standing is quite respectable!",
       "Your behavior is... acceptable.",
       "Your behavior is being closely monitored!",
       "Your social credit needs improvement..."].getD (commentBandIdx 60) "" ∧
    emojiBandIdx (-30) = commentBandIdx (-30) ∧
    emojiBandIdx (-50) ≠ commentBandIdx (-50) :=
  flavor_text_bands 60 (-30) 5 (by omega) (by decide)

end FuelCreditScore
